import Mathlib

set_option autoImplicit false

/-!
Verification development for the IGP2 maneuver/macro-action planning stack
(`igp2/planlibrary/macro_action.py`, `igp2/planning/node.py`, `igp2/agent.py`).

The road map ("Lane Network Query") is an external, read-only collaborator: its
queries are modelled as abstract function fields of a `ScenarioMap` structure,
exactly the interface consumed by the code under study.  Real-valued quantities
are modelled over `ℚ` so every definition is executable.
-/

namespace IGP2

/-- A 2D point, as used for positions, midline coordinates and turn targets. -/
abbrev Point : Type := ℚ × ℚ

/-- Modelled from the spec: `AgentState` (`igp2/agentstate.py`, not present in
the sources) is "a timestamped snapshot of one agent's position, velocity,
acceleration, heading"; `state.speed` is the scalar speed of the agent. -/
structure AgentState where
  time : ℚ
  position : Point
  speed : ℚ
  acceleration : ℚ
  heading : ℚ
  deriving Repr, DecidableEq

/-- One lane of the road network, with exactly the attributes the code under
study reads.  Successor lanes (`lane.link.successor`, which in the source is
either `None` or a list) are stored as indices into the map's lane table, so
cyclic lane topologies (roundabouts) are representable.  `roadInRoundabout`
records `scenario_map.road_in_roundabout(lane.parent_road)`. -/
structure Lane where
  laneId : ℤ
  length : ℚ
  succ : Option (List ℕ)
  sectionLaneCount : ℕ
  parentRoadHasJunction : Bool
  roadInRoundabout : Bool
  pointAt : ℚ → Point
  headingAt : ℚ → ℚ
  distanceAt : Point → ℚ
  boundaryDistance : Point → ℚ
  midlineEnd : Point

/-- The external Lane Network Query collaborator.  Queries that the source
calls with fixed literal thresholds (`lanes_within_angle(position, heading,
π/9, max_distance=0.5)`) are modelled with those constants folded in.
`junctionAt p` stands for `scenario_map.junction_at(p) is not None`. -/
structure ScenarioMap where
  lanes : ℕ → Lane
  bestLaneAt : Point → ℚ → Option ℕ
  bestDrivableLaneAt : Point → ℚ → Option ℕ
  lanesAt : Point → ℚ → List ℕ
  lanesWithinAngle : Point → ℚ → List ℕ
  junctionAt : Point → Bool
  inRoundabout : Point → ℚ → Bool

/-- Modelled from the spec: the open-loop trajectory returned by
`MacroAction.get_trajectory` (`igp2/trajectory.py` is not in the sources).
Forward-projection only reads its `duration` and its final sample
(`trajectory.final_agent_state`). -/
structure Trajectory where
  duration : ℚ
  final_agent_state : AgentState

/-- A frame: the mapping from integer agent id to agent state.  Python's
`dict` is modelled as an association list with distinct keys; iteration order
is the list order and lookup is by first occurrence. -/
abbrev Frame : Type := List (ℕ × AgentState)

/-- Look up an agent id in a frame. -/
def Frame.lookup : Frame → ℕ → Option AgentState
  | [], _ => none
  | (k, v) :: rest, aid => if aid = k then some v else Frame.lookup rest aid

/-- The agent ids of a frame, in iteration order. -/
def Frame.keys (f : Frame) : List ℕ :=
  f.map Prod.fst

/-! ### `_lane_at_distance` (macro_action.py, lines 65-77)

```python
def _lane_at_distance(lane: Lane, ds: float) -> Tuple[Lane, float]:
    current_lane = lane
    total_length = 0.0
    while True:
        if total_length <= ds < total_length + current_lane.length:
            return current_lane, ds - total_length
        total_length += current_lane.length
        successor = current_lane.link.successor
        if successor is None:
            break
        current_lane = successor[0]
    logger.debug(...)
    return current_lane, current_lane.length
```

The `while True` loop carries no iteration or distance bound, so the
denotation is partial; it is embedded with explicit fuel, `none` standing for
"the loop has not produced a result within `fuel` iterations".  (If the
successor list were empty, `successor[0]` would raise `IndexError`; this
crash case is also mapped to `none` and excluded by hypothesis where it
matters.) -/
def lane_at_distance (m : ScenarioMap) : ℕ → ℕ → ℚ → ℚ → Option (ℕ × ℚ)
  | 0, _, _, _ => none
  | fuel + 1, cur, ds, total =>
    if total ≤ ds ∧ ds < total + (m.lanes cur).length then
      some (cur, ds - total)
    else
      match (m.lanes cur).succ with
      | none => some (cur, (m.lanes cur).length)
      | some [] => none
      | some (s :: _) => lane_at_distance m fuel s ds (total + (m.lanes cur).length)

/-- The walk from lane `cur` for arc length `ds` (accumulated length `total`)
never returns, whatever the iteration budget. -/
def walkDiverges (m : ScenarioMap) (cur : ℕ) (ds total : ℚ) : Prop :=
  ∀ fuel : ℕ, lane_at_distance m fuel cur ds total = none

/-- A cyclic one-lane map: a zero-length lane that is its own successor
(cyclic topology as in a roundabout, with a degenerate lane). -/
def loopLane : Lane where
  laneId := 1
  length := 0
  succ := some [0]
  sectionLaneCount := 2
  parentRoadHasJunction := false
  roadInRoundabout := true
  pointAt := fun d => (d, 0)
  headingAt := fun _ => 0
  distanceAt := fun p => p.1
  boundaryDistance := fun _ => 0
  midlineEnd := (0, 0)

/-- The map holding only `loopLane`. -/
def loopMap : ScenarioMap where
  lanes := fun _ => loopLane
  bestLaneAt := fun _ _ => some 0
  bestDrivableLaneAt := fun _ _ => some 0
  lanesAt := fun _ _ => [0]
  lanesWithinAngle := fun _ _ => [0]
  junctionAt := fun _ => false
  inRoundabout := fun _ _ => true

/-! ### `MacroAction.play_forward_macro_action` (macro_action.py, lines 49-96)

```python
if not macro_action:
    return frame
trajectory = macro_action.get_trajectory()
new_frame = {agent_id: trajectory.final_agent_state}
duration = trajectory.duration
for aid, agent in frame.items():
    if aid != agent_id:
        state = copy(agent)
        agent_lane = scenario_map.best_lane_at(agent.position, agent.heading)
        if agent_lane is None:
            continue
        agent_distance = agent_lane.distance_at(agent.position) + duration * agent.speed
        final_lane, distance_in_lane = _lane_at_distance(agent_lane, agent_distance)
        state.position = final_lane.point_at(distance_in_lane)
        state.heading = final_lane.get_heading_at(distance_in_lane)
        new_frame[aid] = state
return new_frame
```

The loop body for one non-ego agent.  The outer `none` marks a run that never
returns (the lane walk inside diverges); `some none` marks the `continue`
branch (the agent has no best lane and is dropped); `some (some st)` is the
projected state, sharing all fields with the input state except position and
heading. -/
def project_agent (m : ScenarioMap) (fuel : ℕ) (traj : Trajectory)
    (ag : AgentState) : Option (Option AgentState) :=
  match m.bestLaneAt ag.position ag.heading with
  | none => some none
  | some li =>
    let dist := (m.lanes li).distanceAt ag.position + traj.duration * ag.speed
    match lane_at_distance m fuel li dist 0 with
    | none => none
    | some (fl, dIn) =>
      some (some { ag with position := (m.lanes fl).pointAt dIn,
                           heading := (m.lanes fl).headingAt dIn })

/-- The `for aid, agent in frame.items()` loop: walk the remaining input
entries, appending projected non-ego agents to the new frame under
construction (`new_frame[aid] = state` on a fresh key appends in insertion
order). -/
def play_forward_go (m : ScenarioMap) (fuel : ℕ) (agent_id : ℕ)
    (traj : Trajectory) : Frame → Frame → Option Frame
  | [], nf => some nf
  | (aid, ag) :: rest, nf =>
    if aid ≠ agent_id then
      match project_agent m fuel traj ag with
      | none => none
      | some none => play_forward_go m fuel agent_id traj rest nf
      | some (some st) => play_forward_go m fuel agent_id traj rest (nf ++ [(aid, st)])
    else
      play_forward_go m fuel agent_id traj rest nf

/-- `MacroAction.play_forward_macro_action`.  The macro action argument is
represented by the data the function reads from it: `none` for a falsy macro
action (returning the frame unchanged) and otherwise its open-loop
trajectory.  `fuel` bounds the embedded `_lane_at_distance` loops; a `none`
result means some lane walk did not return within `fuel` iterations. -/
def play_forward_macro_action (m : ScenarioMap) (fuel : ℕ) (agent_id : ℕ)
    (frame : Frame) (mac : Option Trajectory) : Option Frame :=
  match mac with
  | none => some frame
  | some traj =>
    play_forward_go m fuel agent_id traj frame [(agent_id, traj.final_agent_state)]

/-- Python exception kinds raised (uncaught) by the code under study. -/
inductive PyError
  | assertionError
  | runtimeError
  | typeError
  | keyError
  | attributeError
  deriving Repr, DecidableEq

/-! ### `ChangeLane` gap analysis (macro_action.py, lines 302-319 and 349-377)

This code runs when `ChangeLane.CHECK_ONCOMING` is set.  `SwitchLane`'s
constants live in `maneuver.py`, which is not among the sources; the spec
only fixes the switch-length window `[MIN, TARGET]`, so `minLen` and
`targetLen` are kept as parameters.  The target midline is a shapely
`LineString` built by `_get_lane_sequence_midline`; the code reads only its
`project` map and its `length`, which are taken as parameters `proj` and
`midlineLen`. -/

/-- `np.isclose(x, 0.0)` with numpy defaults `rtol=1e-5, atol=1e-8`:
`|x - 0| <= atol + rtol * |0|`. -/
def npIsCloseZero (x : ℚ) : Bool :=
  decide (|x| ≤ 1 / 100000000)

/-- One oncoming interval: (start time, end time, signed distance). -/
abbrev Interval : Type := ℚ × ℚ × ℚ

/-- The loop of `ChangeLane._get_oncoming_vehicle_intervals`:

```python
for aid, agent in self.start_frame.items():
    if self.agent_id == aid:
        continue
    agent_lanes = self.scenario_map.lanes_at(agent.position)
    if any([l in target_lane_sequence for l in agent_lanes]):
        d_speed = state.speed - agent.speed
        d_distance = target_midline.project(Point(agent.position)) - \
                     target_midline.project(Point(state.position))
        if np.isclose(d_speed, 0.0):
            if np.abs(d_distance) < SwitchLane.MIN_SWITCH_LENGTH:
                raise RuntimeError("Lane change is blocked ...")
            continue
        time_until_pass = d_distance / d_speed
        pass_time = np.abs(SwitchLane.MIN_SWITCH_LENGTH / d_speed)
        interval_end_time = time_until_pass + pass_time
        if interval_end_time > 0:
            interval_start_time = max(0, time_until_pass - pass_time)
        oncoming_intervals.append((interval_start_time, interval_end_time, d_distance))
```

`lanesAtDefault` stands for `scenario_map.lanes_at(position)` with its default
maximum distance.  `.error ()` is the `RuntimeError`. -/
def oncoming_go (m : ScenarioMap) (minLen : ℚ) (state : AgentState) (egoId : ℕ)
    (targetSeq : List ℕ) (proj : Point → ℚ) (lanesAtDefault : Point → List ℕ) :
    Frame → Except Unit (List Interval)
  | [] => .ok []
  | (aid, agent) :: rest =>
    if egoId = aid then
      oncoming_go m minLen state egoId targetSeq proj lanesAtDefault rest
    else
      if (lanesAtDefault agent.position).any (fun l => targetSeq.contains l) then
        let dSpeed := state.speed - agent.speed
        let dDistance := proj agent.position - proj state.position
        if npIsCloseZero dSpeed then
          if |dDistance| < minLen then .error ()
          else oncoming_go m minLen state egoId targetSeq proj lanesAtDefault rest
        else
          let timeUntilPass := dDistance / dSpeed
          let passTime := |minLen / dSpeed|
          let intervalEnd := timeUntilPass + passTime
          if 0 < intervalEnd then
            match oncoming_go m minLen state egoId targetSeq proj lanesAtDefault rest with
            | .error e => .error e
            | .ok ivs => .ok ((max 0 (timeUntilPass - passTime), intervalEnd, dDistance) :: ivs)
          else oncoming_go m minLen state egoId targetSeq proj lanesAtDefault rest
      else oncoming_go m minLen state egoId targetSeq proj lanesAtDefault rest

/-- `ChangeLane._get_oncoming_vehicle_intervals`: the loop above followed by
`sorted(oncoming_intervals, key=lambda period: period[0])`. -/
def oncoming_vehicle_intervals (m : ScenarioMap) (minLen : ℚ) (state : AgentState)
    (egoId : ℕ) (targetSeq : List ℕ) (proj : Point → ℚ)
    (lanesAtDefault : Point → List ℕ) (frame : Frame) : Except Unit (List Interval) :=
  match oncoming_go m minLen state egoId targetSeq proj lanesAtDefault frame with
  | .error e => .error e
  | .ok ivs => .ok (ivs.mergeSort (fun a b => a.1 ≤ b.1))

/-- The inner `for` loop of the gap search: starting from `t_start = 0.0`,
push `t_start` to the end of every conflicting interval. -/
def gap_t_start (ivs : List Interval) (dChange tChange : ℚ) : ℚ :=
  ivs.foldl
    (fun tStart iv =>
      if |iv.2.2| < dChange ∧ tStart < iv.2.1 ∧ iv.1 < tStart + tChange then iv.2.1
      else tStart)
    0

/-- The `while d_change >= SwitchLane.MIN_SWITCH_LENGTH:` loop of
`ChangeLane.get_maneuvers`:

```python
while d_change >= SwitchLane.MIN_SWITCH_LENGTH:
    t_change = d_change / state.speed
    t_start = 0.0
    for iv_start, iv_end, d_distance in oncoming_intervals:
        if np.abs(d_distance) < d_change and t_start < iv_end and iv_start < t_start + t_change:
            t_start = iv_end
    if t_start + t_change >= t_lane_end:
        d_change -= 5
    else:
        break
else:
    assert False, "Cannot finish lane change until end of current lane!"
```

`none` is the `while`-`else` exit, i.e. the `assert False`. -/
def gap_search (ivs : List Interval) (speed tLaneEnd minLen : ℚ) (dChange : ℚ) :
    Option (ℚ × ℚ) :=
  if h : dChange < minLen then none
  else
    let tChange := dChange / speed
    let tStart := gap_t_start ivs dChange tChange
    if tStart + tChange ≥ tLaneEnd then
      gap_search ivs speed tLaneEnd minLen (dChange - 5)
    else some (dChange, tStart)
  termination_by (⌈(dChange - minLen) / 5⌉ + 1).toNat
  decreasing_by
    have h5 : (dChange - 5 - minLen) / 5 = (dChange - minLen) / 5 - 1 := by ring
    have hc : ⌈(dChange - 5 - minLen) / 5⌉ = ⌈(dChange - minLen) / 5⌉ - 1 := by
      rw [h5, Int.ceil_sub_one]
    have hnn : (0 : ℤ) ≤ ⌈(dChange - minLen) / 5⌉ := by
      apply Int.ceil_nonneg
      have h20 : (0 : ℚ) ≤ dChange - minLen := by linarith [not_lt.mp h]
      positivity
    rw [hc]
    omega

/-- The `ChangeLane.CHECK_ONCOMING` block of `ChangeLane.get_maneuvers`
(lines 302-319) up to the point where a feasible `(d_change, t_start)` pair
is fixed: compute the oncoming intervals, the time left until the end of the
target midline, and run the gap search.  An `AssertionError` (from
`assert False`) or `RuntimeError` propagates out of the constructor uncaught
(no caller in the repository catches either). -/
def change_lane_gap_check (m : ScenarioMap) (minLen targetLen : ℚ) (egoId : ℕ)
    (frame : Frame) (targetSeq : List ℕ) (proj : Point → ℚ) (midlineLen : ℚ)
    (lanesAtDefault : Point → List ℕ) : Except PyError (ℚ × ℚ) :=
  match Frame.lookup frame egoId with
  | none => .error .keyError
  | some state =>
    match oncoming_vehicle_intervals m minLen state egoId targetSeq proj
        lanesAtDefault frame with
    | .error _ => .error .runtimeError
    | .ok ivs =>
      let tLaneEnd := (midlineLen - proj state.position) / state.speed
      match gap_search ivs state.speed tLaneEnd minLen targetLen with
      | none => .error .assertionError
      | some r => .ok r

/-! ### `ChangeLane.check_change_validity` and applicability
(macro_action.py, lines 379-382 and 428-472) -/

/-- Python's `min(xs, key=lambda x: x[0])`: the first element with minimal
key. -/
def min_by_fst : List (ℚ × ℕ) → (ℚ × ℕ) → (ℚ × ℕ)
  | [], best => best
  | x :: rest, best => min_by_fst rest (if x.1 < best.1 then x else best)

/-- `min(successor_distances, key=lambda x: x[0])` over the successor lanes
`s :: rest`: the (boundary distance to the agent, lane) pair of the nearest
successor. -/
def nearest_successor (m : ScenarioMap) (state : AgentState) (s : ℕ)
    (rest : List ℕ) : ℚ × ℕ :=
  min_by_fst (rest.map fun li => ((m.lanes li).boundaryDistance state.position, li))
    ((m.lanes s).boundaryDistance state.position, s)

/-- `ChangeLane._get_target_lane`:

```python
tid = current_lane.id + (1 if np.sign(current_lane.id) > 0 else -1) * (-1 if self.left else 1)
return current_lane.lane_section.get_lane(tid)
```

`sectionGetLane` models `lane.lane_section.get_lane` of the external map. -/
def get_target_lane (m : ScenarioMap) (sectionGetLane : ℕ → ℤ → Option ℕ)
    (cl : ℕ) (left : Bool) : Option ℕ :=
  let cid := (m.lanes cl).laneId
  let tid := cid + (if 0 < cid then 1 else -1) * (if left then -1 else 1)
  sectionGetLane cl tid

/-- Modelled from the spec: `SwitchLaneLeft.applicable` /
`SwitchLaneRight.applicable` (`igp2/planlibrary/maneuver.py`, not among the
sources).  Per the spec's applicability sentence, switching on a side
requires that "a target lane exists" on that side and "is not the center
(id 0) lane"; the target lane on a side is the one `ChangeLane._get_target_lane`
resolves. -/
def switch_lane_applicable (m : ScenarioMap) (sectionGetLane : ℕ → ℤ → Option ℕ)
    (state : AgentState) (left : Bool) : Bool :=
  match m.bestLaneAt state.position state.heading with
  | none => false
  | some cl =>
    match get_target_lane m sectionGetLane cl left with
    | none => false
    | some tl => decide ((m.lanes tl).laneId ≠ 0)

/-- `ChangeLane.check_change_validity`:

```python
in_junction = scenario_map.junction_at(state.position) is not None
if in_junction:
    return False
current_lane = scenario_map.best_lane_at(state.position, state.heading)
successor = current_lane.link.successor
if successor is not None:
    successor_distances = [(s.boundary.distance(Point(state.position)), s) for s in successor]
    distance_to_successor, nearest_successor = min(successor_distances, key=lambda x: x[0])
    if all([len(lane.lane_section.all_lanes) <= 2 for lane in successor]):
        return distance_to_successor > SwitchLane.MIN_SWITCH_LENGTH
    elif nearest_successor.parent_road.junction is not None:
        return distance_to_successor > SwitchLane.TARGET_SWITCH_LENGTH or \
               scenario_map.road_in_roundabout(current_lane.parent_road)
else:
    return True
```

The outer `none` marks a Python crash (`best_lane_at` returning `None`, or
`min` over an empty successor list).  When successors exist, are not all
single-laned, and the nearest successor's road is not a junction road, the
`if/elif` chain falls through and the function implicitly returns `None`,
which is falsy; that branch is `some false` here (truthiness is preserved). -/
def check_change_validity (minLen targetLen : ℚ) (m : ScenarioMap)
    (state : AgentState) : Option Bool :=
  if m.junctionAt state.position then some false
  else
    match m.bestLaneAt state.position state.heading with
    | none => none
    | some cl =>
      match (m.lanes cl).succ with
      | none => some true
      | some [] => none
      | some (s :: rest) =>
        let nearest := nearest_successor m state s rest
        if (s :: rest).all (fun li => (m.lanes li).sectionLaneCount ≤ 2) then
          some (decide (minLen < nearest.1))
        else if (m.lanes nearest.2).parentRoadHasJunction then
          some (decide (targetLen < nearest.1) || (m.lanes cl).roadInRoundabout)
        else
          some false

/-- `ChangeLaneLeft.applicable` / `ChangeLaneRight.applicable`:
`SwitchLane{Left,Right}.applicable(state, scenario_map) and
ChangeLane.check_change_validity(state, scenario_map)` (Python `and`
short-circuits, so the validity check - and any crash inside it - is only
reached when the switch-lane precondition holds). -/
def change_lane_applicable (minLen targetLen : ℚ) (m : ScenarioMap)
    (sectionGetLane : ℕ → ℤ → Option ℕ) (state : AgentState) (left : Bool) :
    Option Bool :=
  if switch_lane_applicable m sectionGetLane state left then
    check_change_validity minLen targetLen m state
  else some false

/-! ### `Exit.get_possible_args` (macro_action.py, lines 568-590) and the
goal collapse in `MacroAgent.update_macro_action` (agent.py, lines 283-309) -/

/-- `np.allclose(a, b, atol=0.25)` on 2D points, with numpy's default
`rtol=1e-5`: componentwise `|a - b| <= atol + rtol * |b|`. -/
def npAllClose (a b : Point) : Bool :=
  decide (|a.1 - b.1| ≤ 1 / 4 + |b.1| / 100000) &&
  decide (|a.2 - b.2| ≤ 1 / 4 + |b.2| / 100000)

/-- The in-junction dedup loop of `Exit.get_possible_args`:

```python
for lane in lanes:
    target = np.array(lane.midline.coords[-1])
    if not any([np.allclose(p, target, atol=0.25) for p in targets]):
        targets.append(target)
```
-/
def exit_dedup_fold (m : ScenarioMap) : List ℕ → List Point → List Point
  | [], acc => acc
  | l :: rest, acc =>
    let target := (m.lanes l).midlineEnd
    if acc.any (fun p => npAllClose p target) then exit_dedup_fold m rest acc
    else exit_dedup_fold m rest (acc ++ [target])

/-- `Exit.get_possible_args` (the returned kwargs dictionaries are in
bijection with their `turn_target` points, which is what is returned here).
`none` marks a Python crash: in a junction, `best_lane_at(...,
drivable_only=True)` returning `None` makes `lane.midline` raise
`AttributeError`; outside a junction, a missing best lane or a `None`
successor list raises on attribute access / iteration. -/
def exit_get_possible_args (m : ScenarioMap) (state : AgentState) :
    Option (List Point) :=
  if m.junctionAt state.position then
    match m.lanesWithinAngle state.position state.heading with
    | [] =>
      match m.bestDrivableLaneAt state.position state.heading with
      | none => none
      | some l => some (exit_dedup_fold m [l] [])
    | ls => some (exit_dedup_fold m ls [])
  else
    match m.bestLaneAt state.position state.heading with
    | none => none
    | some cl =>
      match (m.lanes cl).succ with
      | none => none
      | some succs =>
        some (succs.foldl
          (fun acc l =>
            if (m.lanes l).roadInRoundabout then acc
            else acc ++ [(m.lanes l).midlineEnd])
          [])

/-- Squared Euclidean distance.  `np.argmin(np.linalg.norm(ps - goal))`
minimizes the Euclidean norm; the same element minimizes its square, which
stays in `ℚ`. -/
def distSq (a b : Point) : ℚ :=
  (a.1 - b.1) ^ 2 + (a.2 - b.2) ^ 2

/-- `np.argmin` over distances to the goal: the first element attaining the
minimum. -/
def argmin_fold (goal : Point) : List Point → Point → ℚ → Point
  | [], best, _ => best
  | p :: rest, best, bestd =>
    if distSq p goal < bestd then argmin_fold goal rest p (distSq p goal)
    else argmin_fold goal rest best bestd

/-- The goal collapse in `MacroAgent.update_macro_action` (lines 299-302):

```python
if len(possible_args) > 1 and isinstance(new_macro_action, type(Exit)):
    ps = np.array([t["turn_target"] for t in possible_args if "turn_target" in t])
    closest = np.argmin(np.linalg.norm(ps - self.goal.center, axis=1))
    possible_args = [{"turn_target": ps[closest]}]
```

(`isinstance(new_macro_action, type(Exit))` tests the class against the
`ABCMeta` metaclass and holds for every macro-action class, so for `Exit` -
the only macro action returning several argument sets - the guard reduces to
`len(possible_args) > 1`.) -/
def collapse_targets (goal : Point) (targets : List Point) : List Point :=
  match targets with
  | [] => []
  | [t] => [t]
  | t :: rest => [argmin_fold goal rest t (distSq t goal)]

/-! ### `Node` (node.py, lines 16-33) -/

/-- The dynamic type of the `key` argument of `Node.__init__` (a Python
value that is a tuple, `None`, or some non-tuple object); tuple elements are
abstracted as integers. -/
inductive PyKey
  | tup (elems : List ℤ)
  | pyNone
  | other
  deriving Repr, DecidableEq

/-- An MCTS search node, with the fields set by `Node.__init__`; macro
actions are abstracted by identifiers and children by their keys.
`actions` may dynamically be `None` (the constructor does not check it). -/
structure Node where
  key : PyKey
  state : Frame
  actions : Option (List ℕ)
  children : List PyKey
  state_visits : ℕ
  q_values : Option (List ℚ)
  action_visits : Option (List ℤ)
  deriving Repr, DecidableEq

/-- `Node.__init__`:

```python
if key is None or not isinstance(key, Tuple):
    raise TypeError(f"Node key must not be a tuple.")
self._key = key
self._state = state
self._actions = actions
self._children = {}
self._state_visits = 0
self._q_values = None
self._action_visits = None
```
-/
def Node.init (key : PyKey) (state : Frame) (actions : Option (List ℕ)) :
    Except PyError Node :=
  match key with
  | .tup es =>
    .ok { key := .tup es, state := state, actions := actions, children := [],
          state_visits := 0, q_values := none, action_visits := none }
  | _ => .error .typeError

/-- `Node.expand`:

```python
if self._actions is None:
    raise TypeError("Cannot expand node without actions")
self._q_values = np.zeros(len(self._actions))
self._action_visits = np.zeros(len(self._actions), dtype=np.int32)
```
-/
def Node.expand (n : Node) : Except PyError Node :=
  match n.actions with
  | none => .error .typeError
  | some acts =>
    .ok { n with q_values := some (List.replicate acts.length 0),
                 action_visits := some (List.replicate acts.length 0) }

/-! ### `MacroAction.__init__` / `MacroAction.next_action`
(macro_action.py, lines 23-44 and 111-116) -/

/-- The dynamic value of the `_current_maneuver` attribute: Python lets it
hold `None`, a single maneuver, or (after `next_action`'s reassignment
`self._current_maneuver = self._maneuvers[1:]`) a list of maneuvers. -/
inductive CurrentManeuver (α : Type)
  | pyNone
  | single (man : α)
  | manList (ms : List α)
  deriving Repr, DecidableEq

/-- The attributes of a constructed `MacroAction` relevant to closed-loop
progress tracking. -/
structure MacroActionProgress (α : Type) where
  maneuvers : List α
  current : CurrentManeuver α
  deriving Repr, DecidableEq

/-- `MacroAction.__init__` (lines 39-40): `self._maneuvers =
self.get_maneuvers()` (passed in as `ms`) and `self._current_maneuver =
None`. -/
def macro_action_init {α : Type} (ms : List α) : MacroActionProgress α :=
  { maneuvers := ms, current := .pyNone }

/-- `MacroAction.next_action`:

```python
if self.current_maneuver.done(frame, scenario_map):
    self._current_maneuver = self._maneuvers[1:]
return self.current_maneuver.next_action(frame, scenario_map)
```

Calling `.done` on `None` or on a list raises `AttributeError`; when the
current maneuver is done, the attribute is first overwritten with the list
slice `self._maneuvers[1:]` and the subsequent `.next_action` call on that
list raises `AttributeError` (the mutation survives the exception).  The
returned pair is (call result, post-call attribute state). -/
def macro_action_next {α β : Type} (doneFn : α → Bool) (nextFn : α → β)
    (s : MacroActionProgress α) : Except PyError β × MacroActionProgress α :=
  match s.current with
  | .pyNone => (.error .attributeError, s)
  | .manList _ => (.error .attributeError, s)
  | .single man =>
    if doneFn man then
      (.error .attributeError, { s with current := .manList (s.maneuvers.drop 1) })
    else (.ok (nextFn man), s)

/-- The lookup characterization of the forward-projection loop, proved below:
an id already present in the frame under construction keeps its value; the ego
id contributes nothing further; any other id resolves through its entry in the
remaining input and the per-agent projection.  This is a proof device stating
what `play_forward_go` computes, not a translation of source code. -/
def go_lookup_model (m : ScenarioMap) (fuel : ℕ) (traj : Trajectory)
    (rest nf : Frame) (ego k : ℕ) : Option AgentState :=
  match Frame.lookup nf k with
  | some v => some v
  | none =>
    if k = ego then none
    else
      match Frame.lookup rest k with
      | none => none
      | some ag =>
        match project_agent m fuel traj ag with
        | some (some st) => some st
        | _ => none

/-! ### Concrete instances used to exercise the definitions -/

/-- A straight lane of length 10 whose successor is lane 1. -/
def wLane0 : Lane where
  laneId := -1
  length := 10
  succ := some [1]
  sectionLaneCount := 2
  parentRoadHasJunction := false
  roadInRoundabout := false
  pointAt := fun d => (d, 0)
  headingAt := fun _ => 0
  distanceAt := fun p => p.1
  boundaryDistance := fun _ => 42
  midlineEnd := (10, 0)

/-- A straight lane of length 10 continuing `wLane0`, with no successor. -/
def wLane1 : Lane where
  laneId := -1
  length := 10
  succ := none
  sectionLaneCount := 2
  parentRoadHasJunction := false
  roadInRoundabout := false
  pointAt := fun d => (10 + d, 0)
  headingAt := fun _ => 0
  distanceAt := fun p => p.1 - 10
  boundaryDistance := fun _ => 42
  midlineEnd := (20, 0)

/-- A two-lane straight road; positions off the road (second coordinate
nonzero) have no best lane. -/
def wMap : ScenarioMap where
  lanes := fun l => if l = 0 then wLane0 else wLane1
  bestLaneAt := fun p _ => if p.2 = 0 then some 0 else none
  bestDrivableLaneAt := fun _ _ => some 0
  lanesAt := fun _ _ => [0]
  lanesWithinAngle := fun _ _ => [0]
  junctionAt := fun _ => false
  inRoundabout := fun _ _ => false

/-- The ego agent's start state. -/
def wEgo : AgentState := { time := 0, position := (0, 0), speed := 2, acceleration := 0, heading := 0 }

/-- A non-ego agent on the road (projected forward by lane following). -/
def wOther : AgentState := { time := 0, position := (2, 0), speed := 3, acceleration := 0, heading := 0 }

/-- A non-ego agent off the road (no best lane: dropped by projection). -/
def wOffRoad : AgentState := { time := 0, position := (5, 7), speed := 1, acceleration := 0, heading := 1 }

/-- The ego macro action's open-loop trajectory: duration 4, final sample at
(8, 0). -/
def wTraj : Trajectory :=
  { duration := 4,
    final_agent_state := { time := 4, position := (8, 0), speed := 2, acceleration := 0, heading := 0 } }

/-- The input frame for the projection examples. -/
def wFrame : Frame := [(0, wEgo), (1, wOther), (2, wOffRoad)]

/-- The frame obtained by playing `wTraj` forward on `wFrame` for ego 0:
agent 1 advances 2 + 4·3 = 14 along the lane chain, landing 4 into lane 1;
agent 2 is dropped. -/
def wOut : Frame :=
  [(0, wTraj.final_agent_state),
   (1, { time := 0, position := (14, 0), speed := 3, acceleration := 0, heading := 0 })]

/-- The condition under which one frame entry makes
`_get_oncoming_vehicle_intervals` raise its `RuntimeError`: a non-ego agent
on the target lane sequence, with (numerically) the same speed as the ego,
within the minimum switch distance along the target midline. -/
def blocker_cond (minLen : ℚ) (state : AgentState) (egoId : ℕ)
    (targetSeq : List ℕ) (proj : Point → ℚ) (lanesAtDefault : Point → List ℕ)
    (p : ℕ × AgentState) : Bool :=
  !(decide (egoId = p.1)) &&
  ((lanesAtDefault p.2.position).any fun l => targetSeq.contains l) &&
  npIsCloseZero (state.speed - p.2.speed) &&
  decide (|proj p.2.position - proj state.position| < minLen)

/-- Ego state for the lane-change gap-analysis examples: speed 1, at the
start of the target midline. -/
def cEgo : AgentState :=
  { time := 0, position := (0, 0), speed := 1, acceleration := 0, heading := 0 }

/-- A neighbour on the target lane with the same speed as the ego, 3 units
ahead along the midline. -/
def cNear : AgentState :=
  { time := 0, position := (3, 0), speed := 1, acceleration := 0, heading := 0 }

/-- A frame with only the ego: no oncoming traffic at all. -/
def cFrame : Frame := [(0, cEgo)]

/-- A frame with the ego and the equal-speed neighbour. -/
def cNearFrame : Frame := [(0, cEgo), (1, cNear)]

/-- Projection onto the (straight, horizontal) target midline. -/
def cProj : Point → ℚ := fun p => p.1

/-- Every position lies on lane 1 (the target lane sequence). -/
def cLanesAt : Point → List ℕ := fun _ => [1]

/-- Lane-section lookup for the lane-change applicability example: the
right-hand neighbour of the current lane (OpenDRIVE id -1) is the lane with
id -2, stored at table index 2. -/
def dGetLane : ℕ → ℤ → Option ℕ := fun _ tid => if tid = -2 then some 2 else none

/-- A junction lane whose midline ends at (3, 4). -/
def eLane : Lane where
  laneId := 1
  length := 5
  succ := none
  sectionLaneCount := 2
  parentRoadHasJunction := true
  roadInRoundabout := false
  pointAt := fun d => (d, 0)
  headingAt := fun _ => 0
  distanceAt := fun p => p.1
  boundaryDistance := fun _ => 0
  midlineEnd := (3, 4)

/-- A map where the agent is inside a junction but no lane lies within the
heading-angle threshold; the best drivable lane is `eLane`. -/
def eMap : ScenarioMap where
  lanes := fun _ => eLane
  bestLaneAt := fun _ _ => some 0
  bestDrivableLaneAt := fun _ _ => some 0
  lanesAt := fun _ _ => [0]
  lanesWithinAngle := fun _ _ => []
  junctionAt := fun _ => true
  inRoundabout := fun _ _ => false

/-- Junction lane endpoints for the dedup example: lanes 0 and 1 end within
the `np.allclose` tolerance of each other; lane 2 ends far away. -/
def fEndpoint (l : ℕ) : Point :=
  if l = 0 then (0, 0) else if l = 1 then (1 / 10, 0) else (10, 0)

/-- The lane table for the dedup example. -/
def fLane (l : ℕ) : Lane where
  laneId := 1
  length := 5
  succ := none
  sectionLaneCount := 2
  parentRoadHasJunction := true
  roadInRoundabout := false
  pointAt := fun d => (d, 0)
  headingAt := fun _ => 0
  distanceAt := fun p => p.1
  boundaryDistance := fun _ => 0
  midlineEnd := fEndpoint l

/-- A map where the agent is inside a junction and lanes 0, 1, 2 lie within
the heading-angle threshold. -/
def fMap : ScenarioMap where
  lanes := fLane
  bestLaneAt := fun _ _ => some 0
  bestDrivableLaneAt := fun _ _ => some 0
  lanesAt := fun _ _ => [0]
  lanesWithinAngle := fun _ _ => [0, 1, 2]
  junctionAt := fun _ => true
  inRoundabout := fun _ _ => false

/-- Successor lanes for the out-of-junction example: lane 1 is in a
roundabout (skipped), lane 2 is not (its endpoint (7, 7) is returned). -/
def gLane (l : ℕ) : Lane where
  laneId := 1
  length := 5
  succ := if l = 0 then some [1, 2] else none
  sectionLaneCount := 2
  parentRoadHasJunction := false
  roadInRoundabout := decide (l = 1)
  pointAt := fun d => (d, 0)
  headingAt := fun _ => 0
  distanceAt := fun p => p.1
  boundaryDistance := fun _ => 0
  midlineEnd := if l = 1 then (5, 5) else (7, 7)

/-- A map where the agent is outside a junction on lane 0, whose successors
are lanes 1 (roundabout) and 2 (not). -/
def gMap : ScenarioMap where
  lanes := gLane
  bestLaneAt := fun _ _ => some 0
  bestDrivableLaneAt := fun _ _ => some 0
  lanesAt := fun _ _ => [0]
  lanesWithinAngle := fun _ _ => [0]
  junctionAt := fun _ => false
  inRoundabout := fun _ _ => false

theorem cyclic_walk_aux (fuel : ℕ) :
    ∀ total : ℚ, lane_at_distance loopMap fuel 0 0 total = none := by
  induction fuel with
  | zero => intro total; rfl
  | succ n ih =>
    intro total
    have hcond : ¬ (total ≤ (0 : ℚ) ∧ (0 : ℚ) < total + (loopMap.lanes 0).length) := by
      rintro ⟨h1, h2⟩
      have : (loopMap.lanes 0).length = 0 := rfl
      rw [this, add_zero] at h2
      linarith
    simp only [lane_at_distance, if_neg hcond]
    exact ih (total + (loopMap.lanes 0).length)

theorem frame_lookup_append (f g : Frame) (k : ℕ) :
    Frame.lookup (f ++ g) k =
      match Frame.lookup f k with
      | some v => some v
      | none => Frame.lookup g k := by
  induction f with
  | nil => rfl
  | cons p rest ih =>
    obtain ⟨a, v⟩ := p
    by_cases h : k = a
    · simp [Frame.lookup, h]
    · simpa [Frame.lookup, h] using ih

theorem frame_lookup_eq_none (f : Frame) (k : ℕ) (h : k ∉ Frame.keys f) :
    Frame.lookup f k = none := by
  induction f with
  | nil => rfl
  | cons p rest ih =>
    obtain ⟨a, v⟩ := p
    simp only [Frame.keys, List.map_cons, List.mem_cons, not_or] at h
    simp only [Frame.lookup, if_neg h.1]
    exact ih h.2

theorem play_forward_go_spec (m : ScenarioMap) (fuel ego : ℕ) (traj : Trajectory) :
    ∀ (rest nf out : Frame),
      play_forward_go m fuel ego traj rest nf = some out →
      (Frame.keys rest).Nodup →
      ∀ k : ℕ, Frame.lookup out k = go_lookup_model m fuel traj rest nf ego k := by
  intro rest
  induction rest with
  | nil =>
    intro nf out hrun _ k
    have hout : nf = out := by
      simpa [play_forward_go] using hrun
    subst hout
    unfold go_lookup_model
    cases h : Frame.lookup nf k with
    | none => simp [Frame.lookup]
    | some v => simp
  | cons p rest ih =>
    obtain ⟨aid, ag⟩ := p
    intro nf out hrun hnodup k
    have hnodup' : (Frame.keys rest).Nodup := by
      simpa [Frame.keys] using hnodup.of_cons
    have haidrest : aid ∉ Frame.keys rest := by
      have := hnodup
      simp only [Frame.keys, List.map_cons, List.nodup_cons] at this
      exact this.1
    by_cases haid : aid = ego
    · subst haid
      have hrun' : play_forward_go m fuel aid traj rest nf = some out := by
        simpa [play_forward_go] using hrun
      have hk := ih nf out hrun' hnodup' k
      rw [hk]
      unfold go_lookup_model
      cases h : Frame.lookup nf k with
      | some v => simp
      | none =>
        by_cases hke : k = aid
        · simp [hke]
        · simp [hke, Frame.lookup]
    · have hstep : play_forward_go m fuel ego traj ((aid, ag) :: rest) nf =
          match project_agent m fuel traj ag with
          | none => none
          | some none => play_forward_go m fuel ego traj rest nf
          | some (some st) => play_forward_go m fuel ego traj rest (nf ++ [(aid, st)]) := by
        simp [play_forward_go, haid]
      cases hp : project_agent m fuel traj ag with
      | none => rw [hstep, hp] at hrun; cases hrun
      | some o =>
        cases o with
        | none =>
          rw [hstep, hp] at hrun
          have hk := ih nf out hrun hnodup' k
          rw [hk]
          unfold go_lookup_model
          cases h : Frame.lookup nf k with
          | some v => simp
          | none =>
            by_cases hke : k = ego
            · simp [hke]
            · by_cases hka : k = aid
              · subst hka
                have hnone : Frame.lookup rest k = none := frame_lookup_eq_none rest k haidrest
                simp [hke, Frame.lookup, hnone, hp]
              · simp [hke, Frame.lookup, hka]
        | some st =>
          rw [hstep, hp] at hrun
          have hk := ih (nf ++ [(aid, st)]) out hrun hnodup' k
          rw [hk]
          unfold go_lookup_model
          rw [frame_lookup_append]
          cases h : Frame.lookup nf k with
          | some v => simp
          | none =>
            by_cases hka : k = aid
            · subst hka
              have hnone : Frame.lookup rest k = none := frame_lookup_eq_none rest k haidrest
              simp [Frame.lookup, hnone, hp, haid]
            · by_cases hke : k = ego
              · subst hke
                simp [Frame.lookup, hka]
              · simp [Frame.lookup, hka, hke]

theorem play_forward_go_total (m : ScenarioMap) (fuel ego : ℕ) (traj : Trajectory) :
    ∀ (rest nf out : Frame),
      play_forward_go m fuel ego traj rest nf = some out →
      ∀ (aid : ℕ) (ag : AgentState),
        Frame.lookup rest aid = some ag → aid ≠ ego →
        project_agent m fuel traj ag ≠ none := by
  intro rest
  induction rest with
  | nil => intro nf out _ aid ag hl; cases hl
  | cons p rest ih =>
    obtain ⟨aid', ag'⟩ := p
    intro nf out hrun aid ag hl hne
    by_cases haid : aid' = ego
    · have hrun' : play_forward_go m fuel ego traj rest nf = some out := by
        simpa [play_forward_go, haid] using hrun
      have hl' : Frame.lookup rest aid = some ag := by
        have : ¬aid = aid' := fun h => hne (h.trans haid)
        simpa [Frame.lookup, this] using hl
      exact ih nf out hrun' aid ag hl' hne
    · have hstep : play_forward_go m fuel ego traj ((aid', ag') :: rest) nf =
          match project_agent m fuel traj ag' with
          | none => none
          | some none => play_forward_go m fuel ego traj rest nf
          | some (some st) => play_forward_go m fuel ego traj rest (nf ++ [(aid', st)]) := by
        simp [play_forward_go, haid]
      cases hp : project_agent m fuel traj ag' with
      | none => rw [hstep, hp] at hrun; cases hrun
      | some o =>
        by_cases hka : aid = aid'
        · have hag : ag' = ag := by
            subst hka
            simpa [Frame.lookup] using hl
          subst hag
          simp [hp]
        · have hl' : Frame.lookup rest aid = some ag := by
            simpa [Frame.lookup, hka] using hl
          cases o with
          | none =>
            rw [hstep, hp] at hrun
            exact ih nf out hrun aid ag hl' hne
          | some st =>
            rw [hstep, hp] at hrun
            exact ih (nf ++ [(aid', st)]) out hrun aid ag hl' hne

theorem lane_walk_term_aux (m : ScenarioMap) (ε : ℚ)
    (hlen : ∀ l, ε ≤ (m.lanes l).length)
    (hsucc : ∀ l, (m.lanes l).succ ≠ some []) :
    ∀ (fuel : ℕ) (cur : ℕ) (ds total : ℚ),
      total ≤ ds → ds < total + fuel * ε →
      ∃ r, lane_at_distance m fuel cur ds total = some r := by
  intro fuel
  induction fuel with
  | zero =>
    intro cur ds total h1 h2
    exfalso
    rw [Nat.cast_zero, zero_mul, add_zero] at h2
    linarith
  | succ n ih =>
    intro cur ds total h1 h2
    by_cases hcond : total ≤ ds ∧ ds < total + (m.lanes cur).length
    · exact ⟨(cur, ds - total), by simp [lane_at_distance, hcond]⟩
    · have hge : total + (m.lanes cur).length ≤ ds := by
        rcases not_and_or.mp hcond with h | h
        · exact absurd h1 h
        · linarith [not_lt.mp h]
      cases hs : (m.lanes cur).succ with
      | none => exact ⟨(cur, (m.lanes cur).length), by simp [lane_at_distance, hcond, hs]⟩
      | some l =>
        cases l with
        | nil => exact absurd hs (hsucc cur)
        | cons s t =>
          have hcast : ((n + 1 : ℕ) : ℚ) * ε = (n : ℚ) * ε + ε := by
            push_cast
            ring
          have hnext : ds < (total + (m.lanes cur).length) + n * ε := by
            have := hlen cur
            rw [hcast] at h2
            linarith
          obtain ⟨r, hr⟩ := ih s ds (total + (m.lanes cur).length) hge hnext
          refine ⟨r, ?_⟩
          simpa [lane_at_distance, if_neg hcond, hs] using hr

/-- C2 counterexample: the lane-successor walk of `_lane_at_distance` is not
bounded by any maximum distance or iteration count.  On the cyclic lane
topology `loopMap` (a lane that is its own successor, with a degenerate
zero-length lane) the walk for requested arc length 0 - an ordinary
nonnegative input, reachable as `distance_at(position) + duration * speed`
with `duration = 0` - never returns, whatever iteration budget it is given:
the source's `while True` loop runs forever. -/
theorem lane_walk_unbounded_counterexample : walkDiverges loopMap 0 0 0 :=
  fun fuel => cyclic_walk_aux fuel 0

/-- C2 (amended): the walk of `_lane_at_distance` has no explicit maximum
distance or iteration bound; it does terminate - also on cyclic lane
topologies such as roundabouts - whenever every lane length is at least some
positive `ε`, the successor lists are never empty, and the requested arc
length is nonnegative, and `⌈ds/ε⌉ + 1` loop iterations always suffice;
when the successor chain is exhausted instead, it returns the defined
fallback (the last lane at its full length). -/
theorem lane_walk_terminates (m : ScenarioMap) (ε : ℚ) (hε : 0 < ε)
    (hlen : ∀ l, ε ≤ (m.lanes l).length)
    (hsucc : ∀ l, (m.lanes l).succ ≠ some [])
    (cur : ℕ) (ds : ℚ) (hds : 0 ≤ ds) :
    ∃ r, lane_at_distance m ((⌈ds / ε⌉).toNat + 1) cur ds 0 = some r := by
  apply lane_walk_term_aux m ε hlen hsucc _ cur ds 0 hds
  have h0 : (0 : ℚ) ≤ ds / ε := div_nonneg hds hε.le
  have hceil : ds / ε ≤ ((⌈ds / ε⌉ : ℤ) : ℚ) := Int.le_ceil _
  have hnn : (0 : ℤ) ≤ ⌈ds / ε⌉ := Int.ceil_nonneg h0
  have htn : (((⌈ds / ε⌉).toNat : ℤ) : ℚ) = ((⌈ds / ε⌉ : ℤ) : ℚ) := by
    rw [Int.toNat_of_nonneg hnn]
  have hds' : ds = (ds / ε) * ε := by
    field_simp
  have hmul : (ds / ε) * ε ≤ (((⌈ds / ε⌉).toNat : ℤ) : ℚ) * ε := by
    rw [htn]
    exact mul_le_mul_of_nonneg_right hceil hε.le
  have hcast : (((⌈ds / ε⌉).toNat + 1 : ℕ) : ℚ) = (((⌈ds / ε⌉).toNat : ℤ) : ℚ) + 1 := by
    push_cast
    ring
  rw [hcast]
  nlinarith [hε]

/-- C2 witness: the termination bound instantiated on the concrete two-lane
map `wMap` (all lane lengths 10, no empty successor list) for arc length 14:
two iterations of the walk find the spot. -/
theorem lane_walk_terminates_witness :
    (0 : ℚ) < 10 ∧ (∀ l, (10 : ℚ) ≤ (wMap.lanes l).length) ∧
    (∀ l, (wMap.lanes l).succ ≠ some []) ∧ (0 : ℚ) ≤ 14 ∧
    ∃ r, lane_at_distance wMap ((⌈(14 : ℚ) / 10⌉).toNat + 1) 0 14 0 = some r := by
  have hlen : ∀ l, (10 : ℚ) ≤ (wMap.lanes l).length := by
    intro l
    by_cases h : l = 0 <;> simp [wMap, wLane0, wLane1, h]
  have hsucc : ∀ l, (wMap.lanes l).succ ≠ some [] := by
    intro l
    by_cases h : l = 0 <;> simp [wMap, wLane0, wLane1, h]
  exact ⟨by norm_num, hlen, hsucc, by norm_num,
    lane_walk_terminates wMap 10 (by norm_num) hlen hsucc 0 14 (by norm_num)⟩

theorem wFrame_nodup : (Frame.keys wFrame).Nodup := by
  decide

theorem wRun_eq : play_forward_macro_action wMap 5 0 wFrame (some wTraj) = some wOut := by
  norm_num [play_forward_macro_action, play_forward_go, project_agent, lane_at_distance,
    wMap, wLane0, wLane1, wFrame, wEgo, wOther, wOffRoad, wTraj, wOut]

theorem wWalk_eq :
    lane_at_distance wMap 5 0
        ((wMap.lanes 0).distanceAt wOther.position + wTraj.duration * wOther.speed) 0 =
      some (1, 4) := by
  norm_num [lane_at_distance, wMap, wLane0, wLane1, wOther, wTraj]

/-- C1: forward-projection returns a frame in which the ego's state is the
macro action's final trajectory sample, and every other agent that the map
places on a lane is advanced along its current lane and chained successor
lanes by arc length `distance_at(position) + duration · speed` (its speed
times the trajectory's duration past its current arc-length position), its
new position and heading read from the reached lane's geometry at the
reached in-lane distance; all its other state fields are unchanged. -/
theorem play_forward_projection_spec (m : ScenarioMap) (fuel ego : ℕ)
    (traj : Trajectory) (frame out : Frame)
    (hnodup : (Frame.keys frame).Nodup)
    (hrun : play_forward_macro_action m fuel ego frame (some traj) = some out) :
    Frame.lookup out ego = some traj.final_agent_state ∧
    ∀ (aid : ℕ) (ag : AgentState) (li fl : ℕ) (dIn : ℚ),
      Frame.lookup frame aid = some ag → aid ≠ ego →
      m.bestLaneAt ag.position ag.heading = some li →
      lane_at_distance m fuel li
          ((m.lanes li).distanceAt ag.position + traj.duration * ag.speed) 0 =
        some (fl, dIn) →
      Frame.lookup out aid =
        some { ag with position := (m.lanes fl).pointAt dIn,
                       heading := (m.lanes fl).headingAt dIn } := by
  have hrun' : play_forward_go m fuel ego traj frame [(ego, traj.final_agent_state)] = some out := by
    simpa [play_forward_macro_action] using hrun
  have hspec := play_forward_go_spec m fuel ego traj frame
    [(ego, traj.final_agent_state)] out hrun' hnodup
  constructor
  · rw [hspec ego]
    simp [go_lookup_model, Frame.lookup]
  · intro aid ag li fl dIn hlk hne hbl hwalk
    rw [hspec aid]
    have hproj : project_agent m fuel traj ag =
        some (some { ag with position := (m.lanes fl).pointAt dIn,
                             heading := (m.lanes fl).headingAt dIn }) := by
      simp [project_agent, hbl, hwalk]
    simp [go_lookup_model, Frame.lookup, hne, hlk, hproj]

/-- C1 witness: on the concrete two-lane map, ego 0 ends at the trajectory's
final sample and agent 1 (speed 3, projected over duration 4 from arc
position 2) is found 4 units into the successor lane, at position (14, 0). -/
theorem play_forward_projection_spec_witness :
    (Frame.keys wFrame).Nodup ∧
    play_forward_macro_action wMap 5 0 wFrame (some wTraj) = some wOut ∧
    Frame.lookup wOut 0 = some wTraj.final_agent_state ∧
    Frame.lookup wOut 1 =
      some { wOther with position := (wMap.lanes 1).pointAt 4,
                         heading := (wMap.lanes 1).headingAt 4 } := by
  have h := play_forward_projection_spec wMap 5 0 wTraj wFrame wOut wFrame_nodup wRun_eq
  refine ⟨wFrame_nodup, wRun_eq, h.1, ?_⟩
  exact h.2 1 wOther 0 1 4 rfl (by decide) rfl wWalk_eq

/-- C9: the id set of the projected frame: the ego id is always present
(bound to the trajectory's final sample), and for any other id, the output
contains it exactly when the input frame contains it with a state at which
the map finds a best lane; agents without a best lane are dropped, so the
output id set can be a strict subset of the input's. -/
theorem play_forward_id_set (m : ScenarioMap) (fuel ego : ℕ)
    (traj : Trajectory) (frame out : Frame)
    (hnodup : (Frame.keys frame).Nodup)
    (hrun : play_forward_macro_action m fuel ego frame (some traj) = some out) :
    Frame.lookup out ego = some traj.final_agent_state ∧
    ∀ aid : ℕ, aid ≠ ego →
      ((Frame.lookup out aid).isSome ↔
        ∃ ag, Frame.lookup frame aid = some ag ∧
          (m.bestLaneAt ag.position ag.heading).isSome) := by
  have hrun' : play_forward_go m fuel ego traj frame [(ego, traj.final_agent_state)] = some out := by
    simpa [play_forward_macro_action] using hrun
  have hspec := play_forward_go_spec m fuel ego traj frame
    [(ego, traj.final_agent_state)] out hrun' hnodup
  have htotal := play_forward_go_total m fuel ego traj frame
    [(ego, traj.final_agent_state)] out hrun'
  constructor
  · rw [hspec ego]
    simp [go_lookup_model, Frame.lookup]
  · intro aid hne
    rw [hspec aid]
    constructor
    · intro hsome
      cases hlk : Frame.lookup frame aid with
      | none =>
        exfalso
        rw [go_lookup_model] at hsome
        simp [Frame.lookup, hne, hlk] at hsome
      | some ag =>
        refine ⟨ag, rfl, ?_⟩
        cases hbl : m.bestLaneAt ag.position ag.heading with
        | none =>
          exfalso
          have hproj : project_agent m fuel traj ag = some none := by
            simp [project_agent, hbl]
          rw [go_lookup_model] at hsome
          simp [Frame.lookup, hne, hlk, hproj] at hsome
        | some li => simp
    · rintro ⟨ag, hlk, hbl⟩
      rw [Option.isSome_iff_exists] at hbl
      obtain ⟨li, hli⟩ := hbl
      have hproj := htotal aid ag hlk hne
      cases hwalk : lane_at_distance m fuel li
          ((m.lanes li).distanceAt ag.position + traj.duration * ag.speed) 0 with
      | none =>
        exfalso
        apply hproj
        simp [project_agent, hli, hwalk]
      | some r =>
        obtain ⟨fl, dIn⟩ := r
        have hproj' : project_agent m fuel traj ag =
            some (some { ag with position := (m.lanes fl).pointAt dIn,
                                 heading := (m.lanes fl).headingAt dIn }) := by
          simp [project_agent, hli, hwalk]
        rw [go_lookup_model]
        simp [Frame.lookup, hne, hlk, hproj']

/-- C9 witness: on the concrete example, ego 0 is present, agent 1 (on the
road) is kept, and agent 2 (no best lane at its position) is dropped: the
output id set {0, 1} is a strict subset of the input's {0, 1, 2}. -/
theorem play_forward_id_set_witness :
    (Frame.keys wFrame).Nodup ∧
    play_forward_macro_action wMap 5 0 wFrame (some wTraj) = some wOut ∧
    Frame.lookup wOut 0 = some wTraj.final_agent_state ∧
    ((Frame.lookup wOut 1).isSome ↔
      ∃ ag, Frame.lookup wFrame 1 = some ag ∧
        (wMap.bestLaneAt ag.position ag.heading).isSome) ∧
    ((Frame.lookup wOut 2).isSome ↔
      ∃ ag, Frame.lookup wFrame 2 = some ag ∧
        (wMap.bestLaneAt ag.position ag.heading).isSome) ∧
    Frame.lookup wFrame 2 = some wOffRoad ∧ Frame.lookup wOut 2 = none := by
  have h := play_forward_id_set wMap 5 0 wTraj wFrame wOut wFrame_nodup wRun_eq
  exact ⟨wFrame_nodup, wRun_eq, h.1, h.2 1 (by decide), h.2 2 (by decide), rfl, rfl⟩

/-- C8: forward-projection is deterministic: it is a pure function of the
map, the fuel, the ego id, the input frame and the macro action's
trajectory, and two runs whose input frames agree as id-to-state mappings
produce projected frames that agree on every agent id (same id set and, per
agent, equal position, heading and all remaining state fields). -/
theorem play_forward_deterministic (m : ScenarioMap) (fuel ego : ℕ)
    (traj : Trajectory) (f1 f2 out1 out2 : Frame)
    (hn1 : (Frame.keys f1).Nodup) (hn2 : (Frame.keys f2).Nodup)
    (hagree : ∀ k, Frame.lookup f1 k = Frame.lookup f2 k)
    (hr1 : play_forward_macro_action m fuel ego f1 (some traj) = some out1)
    (hr2 : play_forward_macro_action m fuel ego f2 (some traj) = some out2) :
    ∀ k, Frame.lookup out1 k = Frame.lookup out2 k := by
  intro k
  have hr1' : play_forward_go m fuel ego traj f1 [(ego, traj.final_agent_state)] = some out1 := by
    simpa [play_forward_macro_action] using hr1
  have hr2' : play_forward_go m fuel ego traj f2 [(ego, traj.final_agent_state)] = some out2 := by
    simpa [play_forward_macro_action] using hr2
  rw [play_forward_go_spec m fuel ego traj f1 _ out1 hr1' hn1 k,
      play_forward_go_spec m fuel ego traj f2 _ out2 hr2' hn2 k]
  unfold go_lookup_model
  rw [hagree k]

/-- C8 witness: two runs on the concrete example (the same frame twice)
agree everywhere; in particular at ids 0, 1 and 2. -/
theorem play_forward_deterministic_witness :
    (Frame.keys wFrame).Nodup ∧
    play_forward_macro_action wMap 5 0 wFrame (some wTraj) = some wOut ∧
    ∀ k, Frame.lookup wOut k = Frame.lookup wOut k := by
  exact ⟨wFrame_nodup, wRun_eq,
    play_forward_deterministic wMap 5 0 wTraj wFrame wFrame wOut wOut wFrame_nodup wFrame_nodup
      (fun _ => rfl) wRun_eq wRun_eq⟩


theorem exists_mem_cons_iff_head_false {α : Type} (P : α → Prop) (a : α) (l : List α)
    (ha : ¬ P a) : (∃ x ∈ a :: l, P x) ↔ ∃ x ∈ l, P x := by
  simp only [List.mem_cons]
  constructor
  · rintro ⟨x, hx | hx, hP⟩
    · exact absurd (hx ▸ hP) ha
    · exact ⟨x, hx, hP⟩
  · rintro ⟨x, hx, hP⟩
    exact ⟨x, Or.inr hx, hP⟩

theorem blocker_cond_iff (minLen : ℚ) (state : AgentState) (egoId : ℕ)
    (targetSeq : List ℕ) (proj : Point → ℚ) (lanesAtDefault : Point → List ℕ)
    (q : ℕ × AgentState) :
    blocker_cond minLen state egoId targetSeq proj lanesAtDefault q = true ↔
      ¬ egoId = q.1 ∧ (∃ l ∈ lanesAtDefault q.2.position, l ∈ targetSeq) ∧
      |state.speed - q.2.speed| ≤ (100000000 : ℚ)⁻¹ ∧
      |proj q.2.position - proj state.position| < minLen := by
  simp [blocker_cond, npIsCloseZero, and_assoc]

theorem oncoming_go_error_iff (m : ScenarioMap) (minLen : ℚ) (state : AgentState)
    (egoId : ℕ) (targetSeq : List ℕ) (proj : Point → ℚ)
    (lanesAtDefault : Point → List ℕ) :
    ∀ frame : Frame,
      oncoming_go m minLen state egoId targetSeq proj lanesAtDefault frame = .error () ↔
      ∃ p ∈ frame, blocker_cond minLen state egoId targetSeq proj lanesAtDefault p = true := by
  intro frame
  induction frame with
  | nil => simp [oncoming_go]
  | cons p rest ih =>
    obtain ⟨aid, ag⟩ := p
    by_cases hego : egoId = aid
    · have hres : oncoming_go m minLen state egoId targetSeq proj lanesAtDefault
          ((aid, ag) :: rest) =
          oncoming_go m minLen state egoId targetSeq proj lanesAtDefault rest := by
        simp [oncoming_go, hego]
      rw [hres, ih]
      exact (exists_mem_cons_iff_head_false _ (aid, ag) rest
        (fun hc => ((blocker_cond_iff minLen state egoId targetSeq proj
          lanesAtDefault (aid, ag)).mp hc).1 hego)).symm
    · by_cases hover : ∃ l ∈ lanesAtDefault ag.position, l ∈ targetSeq
      · by_cases hclose : |state.speed - ag.speed| ≤ (100000000 : ℚ)⁻¹
        · by_cases hdist : |proj ag.position - proj state.position| < minLen
          · have hres : oncoming_go m minLen state egoId targetSeq proj lanesAtDefault
                ((aid, ag) :: rest) = .error () := by
              simp [oncoming_go, npIsCloseZero, hego, hover, hclose, hdist]
            rw [hres]
            simp only [true_iff]
            exact ⟨(aid, ag), List.mem_cons_self _ _,
              (blocker_cond_iff minLen state egoId targetSeq proj lanesAtDefault
                (aid, ag)).mpr ⟨hego, hover, hclose, hdist⟩⟩
          · have hres : oncoming_go m minLen state egoId targetSeq proj lanesAtDefault
                ((aid, ag) :: rest) =
                oncoming_go m minLen state egoId targetSeq proj lanesAtDefault rest := by
              simp [oncoming_go, npIsCloseZero, hego, hover, hclose, hdist]
            rw [hres, ih]
            exact (exists_mem_cons_iff_head_false _ (aid, ag) rest
              (fun hc => hdist ((blocker_cond_iff minLen state egoId targetSeq proj
                lanesAtDefault (aid, ag)).mp hc).2.2.2)).symm
        · have hres : (oncoming_go m minLen state egoId targetSeq proj lanesAtDefault
              ((aid, ag) :: rest) = .error ()) ↔
              (oncoming_go m minLen state egoId targetSeq proj lanesAtDefault rest = .error ()) := by
            by_cases hend : 0 < (proj ag.position - proj state.position) / (state.speed - ag.speed) +
                |minLen / (state.speed - ag.speed)|
            · cases hrec : oncoming_go m minLen state egoId targetSeq proj lanesAtDefault rest with
              | error e =>
                cases e
                simp [oncoming_go, npIsCloseZero, hego, hover, hclose, hend, hrec]
              | ok ivs =>
                simp [oncoming_go, npIsCloseZero, hego, hover, hclose, hend, hrec]
            · simp [oncoming_go, npIsCloseZero, hego, hover, hclose, hend]
          rw [hres, ih]
          exact (exists_mem_cons_iff_head_false _ (aid, ag) rest
            (fun hc => hclose ((blocker_cond_iff minLen state egoId targetSeq proj
              lanesAtDefault (aid, ag)).mp hc).2.2.1)).symm
      · have hres : oncoming_go m minLen state egoId targetSeq proj lanesAtDefault
            ((aid, ag) :: rest) =
            oncoming_go m minLen state egoId targetSeq proj lanesAtDefault rest := by
          simp [oncoming_go, hego, hover]
        rw [hres, ih]
        exact (exists_mem_cons_iff_head_false _ (aid, ag) rest
          (fun hc => hover ((blocker_cond_iff minLen state egoId targetSeq proj
            lanesAtDefault (aid, ag)).mp hc).2.1)).symm

/-- C3 (amended): when `ChangeLane`'s gap analysis (run when
`ChangeLane.CHECK_ONCOMING` is set) finds no safe gap, construction does not
report a recoverable BlockedManeuver result: if an equal-speed neighbour on
the target lane sequence sits within the minimum switch distance, the
interval computation raises a `RuntimeError`; if no switch length from the
target length down to the minimum length (in decrements of 5) completes
before the current lane ends, the search loop falls through to
`assert False` and raises an `AssertionError`.  Both exceptions propagate
out of the constructor uncaught (`get_applicable_actions` catches only
`NotImplementedError`), so the overall planning call crashes. -/
theorem change_lane_blocked_raises (m : ScenarioMap) (minLen targetLen : ℚ)
    (egoId : ℕ) (frame : Frame) (targetSeq : List ℕ) (proj : Point → ℚ)
    (midlineLen : ℚ) (lanesAtDefault : Point → List ℕ) (state : AgentState)
    (hstate : Frame.lookup frame egoId = some state) :
    ((∃ p ∈ frame, blocker_cond minLen state egoId targetSeq proj lanesAtDefault p = true) →
      change_lane_gap_check m minLen targetLen egoId frame targetSeq proj midlineLen
        lanesAtDefault = .error .runtimeError) ∧
    (∀ ivs,
      oncoming_vehicle_intervals m minLen state egoId targetSeq proj lanesAtDefault frame =
        .ok ivs →
      gap_search ivs state.speed ((midlineLen - proj state.position) / state.speed)
        minLen targetLen = none →
      change_lane_gap_check m minLen targetLen egoId frame targetSeq proj midlineLen
        lanesAtDefault = .error .assertionError) := by
  constructor
  · intro hex
    have herr : oncoming_go m minLen state egoId targetSeq proj lanesAtDefault frame =
        .error () :=
      (oncoming_go_error_iff m minLen state egoId targetSeq proj lanesAtDefault frame).mpr hex
    have hint : oncoming_vehicle_intervals m minLen state egoId targetSeq proj
        lanesAtDefault frame = .error () := by
      simp [oncoming_vehicle_intervals, herr]
    simp [change_lane_gap_check, hstate, hint]
  · intro ivs hok hgap
    simp [change_lane_gap_check, hstate, hok, hgap]

theorem cFrame_intervals_ok :
    oncoming_vehicle_intervals wMap 10 cEgo 0 [1] cProj cLanesAt cFrame = .ok [] := by
  simp [oncoming_vehicle_intervals, oncoming_go, cFrame, List.mergeSort_nil]

theorem cFrame_gap_none :
    gap_search [] cEgo.speed ((5 - cProj cEgo.position) / cEgo.speed) 10 20 = none := by
  rw [gap_search]
  norm_num [cEgo, cProj, gap_t_start]
  rw [gap_search]
  norm_num [gap_t_start]
  rw [gap_search]
  norm_num [gap_t_start]
  rw [gap_search]
  norm_num

/-- C3 witness: both failure modes of the amended claim, instantiated.  With
only the ego in the frame and a target midline only 5 units long (ego speed
1), no switch length in {20, 15, 10} fits, so the search falls through to
the `AssertionError`; adding an equal-speed neighbour 3 < 10 units ahead on
the target lane raises the `RuntimeError`. -/
theorem change_lane_blocked_raises_witness :
    Frame.lookup cFrame 0 = some cEgo ∧
    oncoming_vehicle_intervals wMap 10 cEgo 0 [1] cProj cLanesAt cFrame = .ok [] ∧
    gap_search [] cEgo.speed ((5 - cProj cEgo.position) / cEgo.speed) 10 20 = none ∧
    change_lane_gap_check wMap 10 20 0 cFrame [1] cProj 5 cLanesAt = .error .assertionError ∧
    Frame.lookup cNearFrame 0 = some cEgo ∧
    (∃ p ∈ cNearFrame, blocker_cond 10 cEgo 0 [1] cProj cLanesAt p = true) ∧
    change_lane_gap_check wMap 10 20 0 cNearFrame [1] cProj 5 cLanesAt = .error .runtimeError := by
  have hex : ∃ p ∈ cNearFrame, blocker_cond 10 cEgo 0 [1] cProj cLanesAt p = true := by
    refine ⟨(1, cNear), by simp [cNearFrame], ?_⟩
    rw [blocker_cond_iff]
    refine ⟨by norm_num, ⟨1, by simp [cLanesAt], by simp⟩, ?_, ?_⟩
    · norm_num [cEgo, cNear]
    · norm_num [cEgo, cNear, cProj]
  refine ⟨rfl, cFrame_intervals_ok, cFrame_gap_none, ?_, rfl, hex, ?_⟩
  · exact (change_lane_blocked_raises wMap 10 20 0 cFrame [1] cProj 5 cLanesAt cEgo
      rfl).2 [] cFrame_intervals_ok cFrame_gap_none
  · exact (change_lane_blocked_raises wMap 10 20 0 cNearFrame [1] cProj 5 cLanesAt cEgo
      rfl).1 hex

/-- C3 counterexample: on a concrete input where the gap analysis finds no
safe gap - a lone ego whose target midline ends after 5 units, so no switch
length searched down from 20 to 10 completes in time - the embedded
`ChangeLane.get_maneuvers` gap block evaluates to an (uncaught)
`AssertionError`, not to a reported BlockedManeuver result; with an
equal-speed neighbour 3 units ahead it evaluates to an uncaught
`RuntimeError`.  The claim's "reports a BlockedManeuver result to the caller
and does not crash the overall planning call" is false on the code. -/
theorem change_lane_blocked_counterexample :
    change_lane_gap_check wMap 10 20 0 cFrame [1] cProj 5 cLanesAt = .error .assertionError ∧
    change_lane_gap_check wMap 10 20 0 cNearFrame [1] cProj 5 cLanesAt = .error .runtimeError := by
  constructor
  · have h1 : Frame.lookup cFrame 0 = some cEgo := rfl
    simp [change_lane_gap_check, h1, cFrame_intervals_ok, cFrame_gap_none]
  · have h1 : Frame.lookup cNearFrame 0 = some cEgo := rfl
    have herr : oncoming_go wMap 10 cEgo 0 [1] cProj cLanesAt cNearFrame = .error () := by
      simp only [oncoming_go, cNearFrame, cEgo, cNear, cProj, cLanesAt, npIsCloseZero]
      norm_num
    have hint : oncoming_vehicle_intervals wMap 10 cEgo 0 [1] cProj cLanesAt cNearFrame =
        .error () := by
      simp [oncoming_vehicle_intervals, herr]
    simp [change_lane_gap_check, h1, hint]

/-- C4: `ChangeLaneLeft` (resp. `ChangeLaneRight`) is applicable exactly when
the side's target lane exists and is not the center (id 0) lane and the
distance-to-junction validity check passes; that check is false inside a
junction; with no successor it passes; and with successors `s :: rest` it is
true exactly when either all successor roads are single-laned (lane-section
size at most 2, i.e. one drivable lane beside the center lane) and the
distance to the nearest successor exceeds the minimum switch length, or not
all are single-laned, the nearest successor lies on a junction road, and the
distance exceeds the target switch length unless the current lane's road is
in a roundabout, which passes that case directly.  (In the remaining case -
successors not all single-laned and the nearest one not on a junction road -
the source falls through and returns the falsy `None`.) -/
theorem change_lane_applicable_spec (minLen targetLen : ℚ) (m : ScenarioMap)
    (sectionGetLane : ℕ → ℤ → Option ℕ) (state : AgentState) (left : Bool) :
    (change_lane_applicable minLen targetLen m sectionGetLane state left = some true ↔
      switch_lane_applicable m sectionGetLane state left = true ∧
      check_change_validity minLen targetLen m state = some true) ∧
    (switch_lane_applicable m sectionGetLane state left = true ↔
      ∃ cl tl, m.bestLaneAt state.position state.heading = some cl ∧
        get_target_lane m sectionGetLane cl left = some tl ∧ (m.lanes tl).laneId ≠ 0) ∧
    (m.junctionAt state.position = true →
      check_change_validity minLen targetLen m state = some false) ∧
    (∀ cl, m.junctionAt state.position = false →
      m.bestLaneAt state.position state.heading = some cl →
      (m.lanes cl).succ = none →
      check_change_validity minLen targetLen m state = some true) ∧
    (∀ cl s rest, m.junctionAt state.position = false →
      m.bestLaneAt state.position state.heading = some cl →
      (m.lanes cl).succ = some (s :: rest) →
      (check_change_validity minLen targetLen m state = some true ↔
        ((∀ li ∈ s :: rest, (m.lanes li).sectionLaneCount ≤ 2) ∧
          minLen < (nearest_successor m state s rest).1) ∨
        ((¬ ∀ li ∈ s :: rest, (m.lanes li).sectionLaneCount ≤ 2) ∧
          (m.lanes (nearest_successor m state s rest).2).parentRoadHasJunction = true ∧
          (targetLen < (nearest_successor m state s rest).1 ∨
            (m.lanes cl).roadInRoundabout = true)))) := by
  refine ⟨?_, ?_, ?_, ?_, ?_⟩
  · unfold change_lane_applicable
    cases hsw : switch_lane_applicable m sectionGetLane state left with
    | false => simp
    | true => simp
  · unfold switch_lane_applicable
    cases hbl : m.bestLaneAt state.position state.heading with
    | none => simp
    | some cl =>
      cases htl : get_target_lane m sectionGetLane cl left with
      | none => simp [htl]
      | some tl => simp [htl]
  · intro hj
    simp [check_change_validity, hj]
  · intro cl hj hbl hsucc
    simp [check_change_validity, hj, hbl, hsucc]
  · intro cl s rest hj hbl hsucc
    cases hall : (s :: rest).all (fun li => (m.lanes li).sectionLaneCount ≤ 2) with
    | true =>
      have hall' : ∀ li ∈ s :: rest, (m.lanes li).sectionLaneCount ≤ 2 := by
        simpa using hall
      have hlhs : check_change_validity minLen targetLen m state =
          some (decide (minLen < (nearest_successor m state s rest).1)) := by
        simp [check_change_validity, hj, hbl, hsucc, hall]
      rw [hlhs]
      constructor
      · intro hlt
        exact Or.inl ⟨hall', by simpa using hlt⟩
      · rintro (⟨-, hlt⟩ | ⟨hna, -⟩)
        · simpa using hlt
        · exact absurd hall' hna
    | false =>
      have hall' : ¬ ∀ li ∈ s :: rest, (m.lanes li).sectionLaneCount ≤ 2 := by
        intro hc
        have hcb : ((s :: rest).all fun li => decide ((m.lanes li).sectionLaneCount ≤ 2)) = true := by
          simp only [List.all_eq_true, decide_eq_true_eq]
          exact hc
        rw [hall] at hcb
        cases hcb
      cases hnj : (m.lanes (nearest_successor m state s rest).2).parentRoadHasJunction with
      | true =>
        have hlhs : check_change_validity minLen targetLen m state =
            some (decide (targetLen < (nearest_successor m state s rest).1) ||
              (m.lanes cl).roadInRoundabout) := by
          simp [check_change_validity, hj, hbl, hsucc, hall, hnj]
        rw [hlhs]
        constructor
        · intro hor
          refine Or.inr ⟨hall', rfl, ?_⟩
          simpa using hor
        · rintro (⟨hforall, -⟩ | ⟨-, -, hor⟩)
          · exact absurd hforall hall'
          · simpa using hor
      | false =>
        have hlhs : check_change_validity minLen targetLen m state = some false := by
          simp [check_change_validity, hj, hbl, hsucc, hall, hnj]
        rw [hlhs]
        constructor
        · intro hc
          cases hc
        · rintro (⟨hforall, -⟩ | ⟨-, hhnj, -⟩)
          · exact absurd hforall hall'
          · cases hhnj

/-- C4 witness: on the two-lane map with a right-hand target lane of id -2
(index 2), `ChangeLaneRight` is applicable at the ego state: the target lane
exists and is not the center lane, the state is not in a junction, the only
successor lane is single-laned, and its boundary distance 42 exceeds the
minimum switch length 10. -/
theorem change_lane_applicable_spec_witness :
    wMap.junctionAt wEgo.position = false ∧
    wMap.bestLaneAt wEgo.position wEgo.heading = some 0 ∧
    (wMap.lanes 0).succ = some [1] ∧
    check_change_validity 10 20 wMap wEgo = some true ∧
    switch_lane_applicable wMap dGetLane wEgo false = true ∧
    change_lane_applicable 10 20 wMap dGetLane wEgo false = some true := by
  have h := change_lane_applicable_spec 10 20 wMap dGetLane wEgo false
  have hj : wMap.junctionAt wEgo.position = false := rfl
  have hbl : wMap.bestLaneAt wEgo.position wEgo.heading = some 0 := rfl
  have hsucc : (wMap.lanes 0).succ = some [1] := rfl
  have hcheck : check_change_validity 10 20 wMap wEgo = some true := by
    rw [(h.2.2.2.2 0 1 [] hj hbl hsucc)]
    left
    constructor
    · intro li hli
      simp only [List.mem_singleton] at hli
      subst hli
      norm_num [wMap, wLane0, wLane1]
    · norm_num [nearest_successor, min_by_fst, wMap, wLane0, wLane1, wEgo]
  have hsw : switch_lane_applicable wMap dGetLane wEgo false = true := by
    rw [h.2.1]
    refine ⟨0, 2, hbl, ?_, ?_⟩
    · norm_num [get_target_lane, dGetLane, wMap, wLane0]
    · norm_num [wMap, wLane0, wLane1]
  exact ⟨hj, hbl, hsucc, hcheck, hsw, (h.1).mpr ⟨hsw, hcheck⟩⟩

theorem npAllClose_self (p : Point) : npAllClose p p = true := by
  simp only [npAllClose, sub_self, abs_zero, Bool.and_eq_true, decide_eq_true_eq]
  constructor <;> positivity

theorem exit_dedup_fold_mono (m : ScenarioMap) :
    ∀ (ls : List ℕ) (acc : List Point),
      ∃ suf, exit_dedup_fold m ls acc = acc ++ suf ∧
        ∀ p ∈ suf, ∃ l ∈ ls, p = (m.lanes l).midlineEnd := by
  intro ls
  induction ls with
  | nil => intro acc; exact ⟨[], by simp [exit_dedup_fold]⟩
  | cons l rest ih =>
    intro acc
    by_cases hc : (acc.any fun p => npAllClose p (m.lanes l).midlineEnd) = true
    · obtain ⟨suf, hsuf, hmem⟩ := ih acc
      refine ⟨suf, ?_, ?_⟩
      · simp [exit_dedup_fold, hc, hsuf]
      · intro p hp
        obtain ⟨l', hl', hpe⟩ := hmem p hp
        exact ⟨l', List.mem_cons_of_mem _ hl', hpe⟩
    · obtain ⟨suf, hsuf, hmem⟩ := ih (acc ++ [(m.lanes l).midlineEnd])
      refine ⟨(m.lanes l).midlineEnd :: suf, ?_, ?_⟩
      · simp only [exit_dedup_fold, hc, if_false, Bool.false_eq_true]
        rw [hsuf, List.append_assoc]
        rfl
      · intro p hp
        rcases List.mem_cons.mp hp with hp | hp
        · exact ⟨l, List.mem_cons_self _ _, hp⟩
        · obtain ⟨l', hl', hpe⟩ := hmem p hp
          exact ⟨l', List.mem_cons_of_mem _ hl', hpe⟩

theorem exit_dedup_fold_covers (m : ScenarioMap) :
    ∀ (ls : List ℕ) (acc : List Point) (l : ℕ), l ∈ ls →
      ∃ p ∈ exit_dedup_fold m ls acc, npAllClose p ((m.lanes l).midlineEnd) = true := by
  intro ls
  induction ls with
  | nil => intro acc l hl; cases hl
  | cons l0 rest ih =>
    intro acc l hl
    by_cases hc : (acc.any fun p => npAllClose p (m.lanes l0).midlineEnd) = true
    · rcases List.mem_cons.mp hl with hl | hl
      · subst hl
        obtain ⟨p, hp, hclose⟩ := List.any_eq_true.mp hc
        obtain ⟨suf, hsuf, -⟩ := exit_dedup_fold_mono m rest acc
        refine ⟨p, ?_, hclose⟩
        rw [exit_dedup_fold, if_pos hc, hsuf]
        exact List.mem_append_left _ hp
      · obtain ⟨p, hp, hclose⟩ := ih acc l hl
        refine ⟨p, ?_, hclose⟩
        rw [exit_dedup_fold, if_pos hc]
        exact hp
    · rcases List.mem_cons.mp hl with hl | hl
      · subst hl
        obtain ⟨suf, hsuf, -⟩ := exit_dedup_fold_mono m rest (acc ++ [(m.lanes l).midlineEnd])
        refine ⟨(m.lanes l).midlineEnd, ?_, npAllClose_self _⟩
        rw [exit_dedup_fold, if_neg hc, hsuf]
        exact List.mem_append_left _ (List.mem_append_right _ (List.mem_singleton_self _))
      · obtain ⟨p, hp, hclose⟩ := ih (acc ++ [(m.lanes l0).midlineEnd]) l hl
        refine ⟨p, ?_, hclose⟩
        rw [exit_dedup_fold, if_neg hc]
        exact hp

theorem exit_dedup_fold_pairwise (m : ScenarioMap) :
    ∀ (ls : List ℕ) (acc : List Point),
      acc.Pairwise (fun a b => npAllClose a b = false) →
      (exit_dedup_fold m ls acc).Pairwise (fun a b => npAllClose a b = false) := by
  intro ls
  induction ls with
  | nil => intro acc hacc; exact hacc
  | cons l rest ih =>
    intro acc hacc
    by_cases hc : (acc.any fun p => npAllClose p (m.lanes l).midlineEnd) = true
    · rw [exit_dedup_fold, if_pos hc]
      exact ih acc hacc
    · rw [exit_dedup_fold, if_neg hc]
      apply ih
      rw [List.pairwise_append]
      refine ⟨hacc, List.pairwise_singleton _ _, ?_⟩
      intro a ha b hb
      rw [List.mem_singleton] at hb
      subst hb
      simp only [List.any_eq_true, not_exists] at hc
      rcases Bool.eq_false_or_eq_true (npAllClose a (m.lanes l).midlineEnd) with h | h
      · exact absurd ⟨ha, h⟩ (hc a)
      · exact h

theorem exit_foldl_filter (m : ScenarioMap) :
    ∀ (succs : List ℕ) (acc : List Point),
      succs.foldl
        (fun acc l =>
          if (m.lanes l).roadInRoundabout then acc
          else acc ++ [(m.lanes l).midlineEnd]) acc =
      acc ++ (succs.filter fun l => !(m.lanes l).roadInRoundabout).map
        (fun l => (m.lanes l).midlineEnd) := by
  intro succs
  induction succs with
  | nil => intro acc; simp
  | cons l rest ih =>
    intro acc
    cases hr : (m.lanes l).roadInRoundabout with
    | true => simp [List.filter_cons, hr, ih]
    | false => simp [List.filter_cons, hr, ih]

theorem argmin_fold_spec (g : Point) :
    ∀ (l : List Point) (best : Point),
      argmin_fold g l best (distSq best g) ∈ best :: l ∧
      ∀ v ∈ best :: l, distSq (argmin_fold g l best (distSq best g)) g ≤ distSq v g := by
  intro l
  induction l with
  | nil =>
    intro best
    refine ⟨List.mem_cons_self _ _, ?_⟩
    intro v hv
    rw [List.mem_singleton] at hv
    subst hv
    exact le_refl _
  | cons p rest ih =>
    intro best
    by_cases hlt : distSq p g < distSq best g
    · have harg : argmin_fold g (p :: rest) best (distSq best g) =
          argmin_fold g rest p (distSq p g) := by
        rw [argmin_fold, if_pos hlt]
      obtain ⟨hmem, hle⟩ := ih p
      rw [harg]
      refine ⟨List.mem_cons_of_mem _ hmem, ?_⟩
      intro v hv
      rcases List.mem_cons.mp hv with hv | hv
      · subst hv
        exact le_of_lt (lt_of_le_of_lt (hle p (List.mem_cons_self _ _)) hlt)
      · exact hle v hv
    · have harg : argmin_fold g (p :: rest) best (distSq best g) =
          argmin_fold g rest best (distSq best g) := by
        rw [argmin_fold, if_neg hlt]
      obtain ⟨hmem, hle⟩ := ih best
      rw [harg]
      constructor
      · rcases List.mem_cons.mp hmem with h | h
        · rw [h]
          exact List.mem_cons_self _ _
        · exact List.mem_cons_of_mem _ (List.mem_cons_of_mem _ h)
      · intro v hv
        rcases List.mem_cons.mp hv with hv | hv
        · subst hv
          exact hle v (List.mem_cons_self _ _)
        · rcases List.mem_cons.mp hv with hv | hv
          · subst hv
            exact le_trans (hle best (List.mem_cons_self _ _)) (not_lt.mp hlt)
          · exact hle v (List.mem_cons_of_mem _ hv)

/-- C5 (amended): `Exit.get_possible_args`, when the agent is inside a
junction and at least one lane lies within the heading-angle threshold of
the current heading, returns the distinct endpoints of those lanes (every
returned target is such an endpoint, every such endpoint is within the
`np.allclose(-, -, atol=0.25)` proximity tolerance of a returned target, and
no returned target is within tolerance of an earlier one); when no lane lies
within the threshold, it instead returns the single endpoint of the best
drivable lane at the position; when outside a junction it returns the
endpoint of every successor lane whose road is not in a roundabout; and when
a single goal point is supplied, `MacroAgent.update_macro_action` collapses
the set to the one turn target nearest that goal. -/
theorem exit_possible_args_spec (m : ScenarioMap) (state : AgentState) :
    (∀ (ls : List ℕ) (out : List Point), m.junctionAt state.position = true →
      m.lanesWithinAngle state.position state.heading = ls → ls ≠ [] →
      exit_get_possible_args m state = some out →
      (∀ p ∈ out, ∃ l ∈ ls, p = (m.lanes l).midlineEnd) ∧
      (∀ l ∈ ls, ∃ p ∈ out, npAllClose p ((m.lanes l).midlineEnd) = true) ∧
      out.Pairwise (fun a b => npAllClose a b = false)) ∧
    (∀ bl : ℕ, m.junctionAt state.position = true →
      m.lanesWithinAngle state.position state.heading = [] →
      m.bestDrivableLaneAt state.position state.heading = some bl →
      exit_get_possible_args m state = some [(m.lanes bl).midlineEnd]) ∧
    (∀ (cl : ℕ) (succs : List ℕ), m.junctionAt state.position = false →
      m.bestLaneAt state.position state.heading = some cl →
      (m.lanes cl).succ = some succs →
      exit_get_possible_args m state =
        some ((succs.filter fun l => !(m.lanes l).roadInRoundabout).map
          fun l => (m.lanes l).midlineEnd)) ∧
    (∀ (goal : Point) (ts : List Point), ts ≠ [] →
      ∃ t, collapse_targets goal ts = [t] ∧ t ∈ ts ∧
        ∀ u ∈ ts, distSq t goal ≤ distSq u goal) := by
  refine ⟨?_, ?_, ?_, ?_⟩
  · intro ls out hj hls hne hout
    have hform : exit_get_possible_args m state = some (exit_dedup_fold m ls []) := by
      cases ls with
      | nil => exact absurd rfl hne
      | cons l0 rest => simp [exit_get_possible_args, hj, hls]
    rw [hform] at hout
    have hout' : out = exit_dedup_fold m ls [] := by
      injection hout with h
      exact h.symm
    subst hout'
    refine ⟨?_, ?_, ?_⟩
    · intro p hp
      obtain ⟨suf, hsuf, hmem⟩ := exit_dedup_fold_mono m ls []
      rw [hsuf] at hp
      exact hmem p (by simpa using hp)
    · intro l hl
      exact exit_dedup_fold_covers m ls [] l hl
    · exact exit_dedup_fold_pairwise m ls [] List.Pairwise.nil
  · intro bl hj hls hbl
    simp [exit_get_possible_args, hj, hls, hbl, exit_dedup_fold]
  · intro cl succs hj hbl hsucc
    simp [exit_get_possible_args, hj, hbl, hsucc, exit_foldl_filter]
  · intro goal ts hne
    cases ts with
    | nil => exact absurd rfl hne
    | cons t rest =>
      cases rest with
      | nil =>
        refine ⟨t, rfl, List.mem_cons_self _ _, ?_⟩
        intro u hu
        rw [List.mem_singleton] at hu
        subst hu
        exact le_refl _
      | cons u rest' =>
        obtain ⟨hmem, hle⟩ := argmin_fold_spec goal (u :: rest') t
        exact ⟨argmin_fold goal (u :: rest') t (distSq t goal), rfl, hmem, hle⟩

/-- C5 counterexample: inside a junction with no lane within the
heading-angle threshold (`lanesWithinAngle` returns `[]`), the claim's
described result - the deduplicated endpoints of the lanes within the
threshold - is the empty set, but `Exit.get_possible_args` returns the
endpoint of the best drivable lane at the position, a non-empty fallback the
claim does not admit. -/
theorem exit_possible_args_counterexample :
    eMap.junctionAt cEgo.position = true ∧
    eMap.lanesWithinAngle cEgo.position cEgo.heading = [] ∧
    exit_dedup_fold eMap [] [] = [] ∧
    exit_get_possible_args eMap cEgo = some [(3, 4)] := by
  exact ⟨rfl, rfl, rfl, rfl⟩

/-- C5 witness: all four parts of the amended claim, instantiated.  In the
junction map `fMap`, lanes 0 and 1 end within tolerance of each other and
lane 2 far away, so the returned targets are the two distinct endpoints; in
`eMap` the fallback returns the best drivable lane's endpoint; in `gMap` the
roundabout successor is skipped; and a three-target set collapses to the
target nearest the goal. -/
theorem exit_possible_args_spec_witness :
    (fMap.junctionAt cEgo.position = true ∧
     fMap.lanesWithinAngle cEgo.position cEgo.heading = [0, 1, 2] ∧
     exit_get_possible_args fMap cEgo = some [(0, 0), (10, 0)] ∧
     (∀ p ∈ [((0 : ℚ), (0 : ℚ)), ((10 : ℚ), (0 : ℚ))],
        ∃ l ∈ [0, 1, 2], p = (fMap.lanes l).midlineEnd) ∧
     (∀ l ∈ [0, 1, 2],
        ∃ p ∈ [((0 : ℚ), (0 : ℚ)), ((10 : ℚ), (0 : ℚ))],
          npAllClose p ((fMap.lanes l).midlineEnd) = true) ∧
     ([((0 : ℚ), (0 : ℚ)), ((10 : ℚ), (0 : ℚ))].Pairwise
        fun a b => npAllClose a b = false)) ∧
    exit_get_possible_args eMap cEgo = some [(3, 4)] ∧
    exit_get_possible_args gMap cEgo = some [(7, 7)] ∧
    (∃ t, collapse_targets (0, 0) [(3, 0), (1, 0), (2, 0)] = [t] ∧
      t ∈ [((3 : ℚ), (0 : ℚ)), (1, 0), (2, 0)] ∧
      ∀ u ∈ [((3 : ℚ), (0 : ℚ)), (1, 0), (2, 0)], distSq t (0, 0) ≤ distSq u (0, 0)) := by
  have hfrun : exit_get_possible_args fMap cEgo = some [(0, 0), (10, 0)] := by
    norm_num [exit_get_possible_args, exit_dedup_fold, npAllClose, fMap, fLane, fEndpoint,
      cEgo, abs_of_nonneg]
  have h1 := (exit_possible_args_spec fMap cEgo).1 [0, 1, 2] [(0, 0), (10, 0)]
    rfl rfl (by simp) hfrun
  have h2 := (exit_possible_args_spec eMap cEgo).2.1 0 rfl rfl rfl
  have h3 := (exit_possible_args_spec gMap cEgo).2.2.1 0 [1, 2] rfl rfl rfl
  have h4 := (exit_possible_args_spec eMap cEgo).2.2.2 (0, 0)
    [(3, 0), (1, 0), (2, 0)] (by simp)
  exact ⟨⟨rfl, rfl, hfrun, h1.1, h1.2.1, h1.2.2⟩, h2, h3, h4⟩

/-- C6: a freshly constructed `Node` is unexpanded - its Q-value array and
its action-visit array are both `None` - and after `expand()` (which
requires a non-`None` action list) both arrays exist, have length equal to
the node's action list, and contain only zeros; in particular
`len(Q) == len(action_visits) == len(actions)` holds for every expanded
node, and `expand` on a node whose actions are `None` raises `TypeError`
instead of producing a third state. -/
theorem node_expand_invariant (key : PyKey) (st : Frame)
    (actions : Option (List ℕ)) :
    (∀ n, Node.init key st actions = .ok n →
      n.q_values = none ∧ n.action_visits = none ∧ n.actions = actions) ∧
    (∀ (n n' : Node) (acts : List ℕ), n.actions = some acts →
      Node.expand n = .ok n' →
      ∃ qs av, n'.q_values = some qs ∧ n'.action_visits = some av ∧
        qs.length = acts.length ∧ av.length = acts.length ∧
        (∀ q ∈ qs, q = 0) ∧ (∀ a ∈ av, a = 0)) ∧
    (∀ n : Node, n.actions = none → Node.expand n = .error .typeError) := by
  refine ⟨?_, ?_, ?_⟩
  · intro n hn
    cases key with
    | tup es =>
      simp only [Node.init, Except.ok.injEq] at hn
      subst hn
      exact ⟨rfl, rfl, rfl⟩
    | pyNone => cases hn
    | other => cases hn
  · intro n n' acts hacts hexp
    rw [Node.expand, hacts] at hexp
    injection hexp with hexp
    subst hexp
    refine ⟨List.replicate acts.length 0, List.replicate acts.length 0,
      rfl, rfl, List.length_replicate _ _, List.length_replicate _ _, ?_, ?_⟩
    · intro q hq
      exact List.eq_of_mem_replicate hq
    · intro a ha
      exact List.eq_of_mem_replicate ha
  · intro n hn
    rw [Node.expand, hn]

/-- C6 witness: constructing a node with key `(7,)` and two actions gives
`None` Q/visit arrays; expanding it gives zero arrays of length 2. -/
theorem node_expand_invariant_witness :
    (∃ n, Node.init (.tup [7]) [] (some [4, 5]) = .ok n ∧
      n.q_values = none ∧ n.action_visits = none ∧
      Node.expand n = .ok { n with q_values := some [0, 0], action_visits := some [0, 0] }) ∧
    (∀ n, Node.init (.tup [7]) [] (some [4, 5]) = .ok n →
      n.q_values = none ∧ n.action_visits = none ∧ n.actions = some [4, 5]) := by
  have h := node_expand_invariant (.tup [7]) [] (some [4, 5])
  refine ⟨⟨Node.mk (.tup [7]) [] (some [4, 5]) [] 0 none none, rfl, ?_, ?_, rfl⟩, h.1⟩
  · exact (h.1 _ rfl).1
  · exact (h.1 _ rfl).2.1

/-- C10: `Node.__init__` raises `TypeError` exactly when the supplied key is
not a tuple (`None` included); for every tuple key the constructor succeeds
and the node starts with zero state visits, an empty children dictionary,
and no Q-value or action-visit arrays. -/
theorem node_init_spec (key : PyKey) (st : Frame) (actions : Option (List ℕ)) :
    (Node.init key st actions = .error .typeError ↔ ∀ es, key ≠ .tup es) ∧
    (∀ es, key = .tup es →
      Node.init key st actions =
        .ok { key := key, state := st, actions := actions, children := [],
              state_visits := 0, q_values := none, action_visits := none }) := by
  constructor
  · cases key with
    | tup es =>
      simp only [Node.init]
      constructor
      · intro h
        cases h
      · intro h
        exact absurd rfl (h es)
    | pyNone => simp [Node.init]
    | other => simp [Node.init]
  · intro es hkey
    subst hkey
    rfl

/-- C10 witness: `None` and a non-tuple key raise `TypeError`; the tuple key
`(2, 3)` yields a fresh unexpanded node. -/
theorem node_init_spec_witness :
    Node.init .pyNone [] none = .error .typeError ∧
    Node.init .other [] none = .error .typeError ∧
    Node.init (.tup [2, 3]) [] (some [1]) =
      .ok { key := .tup [2, 3], state := [], actions := some [1], children := [],
            state_visits := 0, q_values := none, action_visits := none } := by
  refine ⟨?_, ?_, (node_init_spec (.tup [2, 3]) [] (some [1])).2 [2, 3] rfl⟩
  · exact (node_init_spec .pyNone [] none).1.mpr (fun es h => by cases h)
  · exact (node_init_spec .other [] none).1.mpr (fun es h => by cases h)

/-- C7: contrary to the claim, a constructed `MacroAction` does not track
its progress with an integer cursor: `__init__` leaves `_current_maneuver`
as `None`, so the very first closed-loop `next_action` call dereferences
`None` and raises `AttributeError`; and when the current maneuver reports
done, `next_action` overwrites the attribute with the list slice
`self._maneuvers[1:]` (a list, not a maneuver or an index) before calling
`.next_action` on it, which again raises `AttributeError`.  Evaluated here
on the maneuver sequence `[10, 20, 30]` with the current maneuver done. -/
theorem macro_action_cursor_bug :
    (macro_action_init [10, 20, 30] : MacroActionProgress ℕ).current =
      CurrentManeuver.pyNone ∧
    (macro_action_next (fun _ => true) (fun man => man)
        (macro_action_init [10, 20, 30] : MacroActionProgress ℕ)).1 =
      .error .attributeError ∧
    (macro_action_next (fun _ => true) (fun man => man)
        { maneuvers := [10, 20, 30], current := .single 10 }).1 =
      .error .attributeError ∧
    (macro_action_next (fun _ => true) (fun man => man)
        { maneuvers := [10, 20, 30], current := .single 10 }).2.current =
      CurrentManeuver.manList [20, 30] :=
  ⟨rfl, rfl, rfl, rfl⟩
